import Mathlib

/-!
Verification of the TeleBuddy telemetry / forward-kinematics core.

The development shallowly embeds the two files that carry the system's
logic:

* `forward_kin.py` — the six-joint forward-kinematics solver
  (`calculate_tip_xy` and its inner helper `get_tf`), modelled over the
  real numbers (exact real arithmetic idealizes the floating point of the
  source).
* `reciever.py` — the serial telemetry controller: the line parser of
  `SerialController._parse_line`, the marker filter of `_read_loop`, the
  lock usage of the publish step (as a statement trace), and the `stop()`
  lifecycle.

Definitions are transcribed from the source; spec-side definitions used
for refinement comparisons are named `spec...`.
-/

namespace TeleBuddy

/-- Homogeneous 4×4 transformation matrices over ℝ, as used throughout
`forward_kin.py`. -/
abbrev M4 : Type := Matrix (Fin 4) (Fin 4) ℝ

/-- The three principal rotation axes `get_tf` dispatches on.  The source
passes the strings `'x'`, `'y'`, `'z'`; an unmatched string would crash
Python, and `calculate_tip_xy` only ever passes these three, so the axis
argument is embedded as a closed three-value type. -/
inductive Axis : Type where
  | x : Axis
  | y : Axis
  | z : Axis
deriving DecidableEq

/-- `np.radians`: degrees to radians. -/
noncomputable def radians (d : ℝ) : ℝ := d * Real.pi / 180

/-- The translation part `T_trans` built inside `get_tf`: translate by
`length` along the local X axis. -/
noncomputable def T_trans (length : ℝ) : M4 :=
  !![1, 0, 0, length;
     0, 1, 0, 0;
     0, 0, 1, 0;
     0, 0, 0, 1]

/-- `get_tf(angle_rad, axis, length)` from `forward_kin.py`: rotate around
`axis`, then translate `length` along the (rotated, local) X axis; the
result is `R @ T_trans`. -/
noncomputable def get_tf (angle_rad : ℝ) (axis : Axis) (length : ℝ) : M4 :=
  let c := Real.cos angle_rad
  let s := Real.sin angle_rad
  let R : M4 :=
    match axis with
    | Axis.x =>
        !![1, 0, 0, 0;
           0, c, -s, 0;
           0, s, c, 0;
           0, 0, 0, 1]
    | Axis.y =>
        !![c, 0, s, 0;
           0, 1, 0, 0;
           -s, 0, c, 0;
           0, 0, 0, 1]
    | Axis.z =>
        !![c, -s, 0, 0;
           s, c, 0, 0;
           0, 0, 1, 0;
           0, 0, 0, 1]
  R * T_trans length

/-- `calculate_tip_xy(angles, lengths)` from `forward_kin.py`: convert the
six degree angles to radians, build the per-joint transforms on the fixed
axes y, y, z, x, z, z, chain them as `T0 @ T1 @ T2 @ T3 @ T4 @ T5` and
return the translation column of the total transform. -/
noncomputable def calculate_tip_xy (angles lengths : Fin 6 → ℝ) : ℝ × ℝ × ℝ :=
  let th := fun i => radians (angles i)
  let T0 := get_tf (th 0) Axis.y (lengths 0)
  let T1 := get_tf (th 1) Axis.y (lengths 1)
  let T2 := get_tf (th 2) Axis.z (lengths 2)
  let T3 := get_tf (th 3) Axis.x (lengths 3)
  let T4 := get_tf (th 4) Axis.z (lengths 4)
  let T5 := get_tf (th 5) Axis.z (lengths 5)
  let T_total := T0 * T1 * T2 * T3 * T4 * T5
  (T_total 0 3, T_total 1 3, T_total 2 3)

/-- `DUMMY_LENGTHS` from `reciever.py`: the fixed link lengths. -/
noncomputable def DUMMY_LENGTHS : Fin 6 → ℝ := ![10, 10, 10, 5, 5, 2]

lemma radians_zero : radians 0 = 0 := by
  simp [radians]

lemma T_trans_mul_T_trans (a b : ℝ) : T_trans a * T_trans b = T_trans (a + b) := by
  ext i j
  fin_cases i <;> fin_cases j <;>
    simp [T_trans, Matrix.mul_apply, Fin.sum_univ_four, Matrix.vecHead, Matrix.vecTail,
          Function.comp] <;> ring

lemma T_trans_zero : T_trans 0 = 1 := by
  ext i j
  fin_cases i <;> fin_cases j <;>
    simp [T_trans, Matrix.one_apply, Matrix.vecHead, Matrix.vecTail, Function.comp]

/-- Closed form of `get_tf` on the `y` axis. -/
lemma get_tf_y (θ l : ℝ) :
    get_tf θ Axis.y l =
      !![Real.cos θ, 0, Real.sin θ, Real.cos θ * l;
         0, 1, 0, 0;
         -Real.sin θ, 0, Real.cos θ, -(Real.sin θ * l);
         0, 0, 0, 1] := by
  ext i j
  fin_cases i <;> fin_cases j <;>
    simp [get_tf, T_trans, Matrix.mul_apply, Fin.sum_univ_four, Matrix.vecHead,
          Matrix.vecTail, Function.comp] <;> ring

/-- Closed form of `get_tf` on the `x` axis. -/
lemma get_tf_x (θ l : ℝ) :
    get_tf θ Axis.x l =
      !![1, 0, 0, l;
         0, Real.cos θ, -Real.sin θ, 0;
         0, Real.sin θ, Real.cos θ, 0;
         0, 0, 0, 1] := by
  ext i j
  fin_cases i <;> fin_cases j <;>
    simp [get_tf, T_trans, Matrix.mul_apply, Fin.sum_univ_four, Matrix.vecHead,
          Matrix.vecTail, Function.comp] <;> ring

/-- Closed form of `get_tf` on the `z` axis. -/
lemma get_tf_z (θ l : ℝ) :
    get_tf θ Axis.z l =
      !![Real.cos θ, -Real.sin θ, 0, Real.cos θ * l;
         Real.sin θ, Real.cos θ, 0, Real.sin θ * l;
         0, 0, 1, 0;
         0, 0, 0, 1] := by
  ext i j
  fin_cases i <;> fin_cases j <;>
    simp [get_tf, T_trans, Matrix.mul_apply, Fin.sum_univ_four, Matrix.vecHead,
          Matrix.vecTail, Function.comp] <;> ring

lemma get_tf_zero (ax : Axis) (l : ℝ) : get_tf 0 ax l = T_trans l := by
  cases ax
  · rw [get_tf_x]
    ext i j
    fin_cases i <;> fin_cases j <;>
      simp [T_trans, Matrix.vecHead, Matrix.vecTail, Function.comp]
  · rw [get_tf_y]
    ext i j
    fin_cases i <;> fin_cases j <;>
      simp [T_trans, Matrix.vecHead, Matrix.vecTail, Function.comp]
  · rw [get_tf_z]
    ext i j
    fin_cases i <;> fin_cases j <;>
      simp [T_trans, Matrix.vecHead, Matrix.vecTail, Function.comp]

/-- With every angle zero the chain is a pure translation by the sum of
the lengths, so the tip lies at `(Σ lengths, 0, 0)`. -/
lemma tip_zero_angles (lengths : Fin 6 → ℝ) :
    calculate_tip_xy (fun _ => 0) lengths =
      (lengths 0 + lengths 1 + lengths 2 + lengths 3 + lengths 4 + lengths 5, 0, 0) := by
  simp only [calculate_tip_xy, radians_zero, get_tf_zero, T_trans_mul_T_trans]
  simp [T_trans]

/-- Multiplying a `y`-rotation-shaped homogeneous matrix by a translation
along X on the right adds the translation in the rotated frame. -/
lemma yform_mul_T_trans (c s p r u : ℝ) :
    (!![c, 0, s, p;
        0, 1, 0, 0;
        -s, 0, c, r;
        0, 0, 0, 1] : M4) * T_trans u =
      !![c, 0, s, p + c * u;
         0, 1, 0, 0;
         -s, 0, c, r - s * u;
         0, 0, 0, 1] := by
  ext i j
  fin_cases i <;> fin_cases j <;>
    simp [T_trans, Matrix.mul_apply, Fin.sum_univ_four, Matrix.vecHead, Matrix.vecTail,
          Function.comp] <;> ring

/-- Multiplying a `y`-rotation-shaped homogeneous matrix by a translation
along X on the left adds the translation to the x entry. -/
lemma T_trans_mul_yform (a c s p r : ℝ) :
    T_trans a * (!![c, 0, s, p;
                    0, 1, 0, 0;
                    -s, 0, c, r;
                    0, 0, 0, 1] : M4) =
      !![c, 0, s, a + p;
         0, 1, 0, 0;
         -s, 0, c, r;
         0, 0, 0, 1] := by
  ext i j
  fin_cases i <;> fin_cases j <;>
    simp [T_trans, Matrix.mul_apply, Fin.sum_univ_four, Matrix.vecHead, Matrix.vecTail,
          Function.comp] <;> ring

/-- The transform chain of the known scenario `[0, 45, 0, 0, 0, 0]` /
`[10, 10, 10, 5, 5, 2]`, in closed form for an arbitrary joint-1 angle. -/
lemma chain_one_joint (θ : ℝ) :
    T_trans 10 * get_tf θ Axis.y 10 * T_trans 10 * T_trans 5 * T_trans 5 * T_trans 2 =
      !![Real.cos θ, 0, Real.sin θ, 10 + 32 * Real.cos θ;
         0, 1, 0, 0;
         -Real.sin θ, 0, Real.cos θ, -(32 * Real.sin θ);
         0, 0, 0, 1] := by
  rw [get_tf_y, T_trans_mul_yform, yform_mul_T_trans, yform_mul_T_trans, yform_mul_T_trans,
      yform_mul_T_trans]
  ext i j
  fin_cases i <;> fin_cases j <;>
    simp [Matrix.vecHead, Matrix.vecTail, Function.comp] <;> ring

/- ### Spec-side formulation of the kinematic chain (spec §4.1)

The following definitions transcribe the algorithm as the specification
words it: a fixed per-joint axis table, a per-joint rigid transform
"rotate about the joint's axis, then translate along the rotated local X",
and a left-to-right fold composing `T = T0·T1·T2·T3·T4·T5`, from which the
translation column is read off.  They exist to be compared with
`calculate_tip_xy`, the definition transcribed from the source. -/

/-- Spec §4.1: the fixed per-joint principal axis table
(Y, Y, Z, X, Z, Z). -/
def jointAxis : Fin 6 → Axis := ![Axis.y, Axis.y, Axis.z, Axis.x, Axis.z, Axis.z]

/-- Spec-side rotation by `θ` radians about a principal axis. -/
noncomputable def specRot (ax : Axis) (θ : ℝ) : M4 :=
  match ax with
  | Axis.x =>
      !![1, 0, 0, 0;
         0, Real.cos θ, -Real.sin θ, 0;
         0, Real.sin θ, Real.cos θ, 0;
         0, 0, 0, 1]
  | Axis.y =>
      !![Real.cos θ, 0, Real.sin θ, 0;
         0, 1, 0, 0;
         -Real.sin θ, 0, Real.cos θ, 0;
         0, 0, 0, 1]
  | Axis.z =>
      !![Real.cos θ, -Real.sin θ, 0, 0;
         Real.sin θ, Real.cos θ, 0, 0;
         0, 0, 1, 0;
         0, 0, 0, 1]

/-- Spec-side translation by `l` along the local X axis. -/
noncomputable def specTranslateX (l : ℝ) : M4 :=
  !![1, 0, 0, l;
     0, 1, 0, 0;
     0, 0, 1, 0;
     0, 0, 0, 1]

/-- Spec-side per-joint rigid transform: rotate by the joint angle
(degrees, converted to radians) about the joint's fixed axis, then
translate by the link length along the rotated local X axis. -/
noncomputable def specJointTf (angleDeg l : ℝ) (ax : Axis) : M4 :=
  specRot ax (angleDeg * Real.pi / 180) * specTranslateX l

/-- Spec-side chain: compose the six per-joint transforms by left-to-right
matrix multiplication in joint order. -/
noncomputable def specChainTf (angles lengths : Fin 6 → ℝ) : M4 :=
  (List.finRange 6).foldl (fun M i => M * specJointTf (angles i) (lengths i) (jointAxis i)) 1

/-- Spec-side tip position: the translation column of the composed chain. -/
noncomputable def specTipPosition (angles lengths : Fin 6 → ℝ) : ℝ × ℝ × ℝ :=
  let T := specChainTf angles lengths
  (T 0 3, T 1 3, T 2 3)

lemma get_tf_eq_specJointTf (a l : ℝ) (ax : Axis) :
    get_tf (radians a) ax l = specJointTf a l ax := by
  cases ax <;> rfl

lemma finRange_six : List.finRange 6 = [0, 1, 2, 3, 4, 5] := by decide

/-- C2: `calculate_tip_xy` computes exactly the chain the spec describes:
per-joint rotation about the fixed axes Y, Y, Z, X, Z, Z followed by a
translation along the rotated local X, composed in joint order, with the
translation column returned. -/
theorem calculate_tip_xy_refines_spec (angles lengths : Fin 6 → ℝ) :
    calculate_tip_xy angles lengths = specTipPosition angles lengths := by
  have h0 : jointAxis 0 = Axis.y := by decide
  have h1 : jointAxis 1 = Axis.y := by decide
  have h2 : jointAxis 2 = Axis.z := by decide
  have h3 : jointAxis 3 = Axis.x := by decide
  have h4 : jointAxis 4 = Axis.z := by decide
  have h5 : jointAxis 5 = Axis.z := by decide
  simp only [calculate_tip_xy, specTipPosition, specChainTf, finRange_six, List.foldl,
             one_mul, h0, h1, h2, h3, h4, h5, get_tf_eq_specJointTf]
  rfl

/- ### The serial line parser of `reciever.py` (`SerialController._parse_line`)

String operations are modelled structurally over the character list of a
`String`, so that every parsing function evaluates inside the kernel. -/

/-- Helper of `pySplit`: walk the characters, accumulating the current
token (reversed); whitespace ends a token, and empty tokens are not
produced. -/
def splitWsAux : List Char → List Char → List String
  | [], cur => if cur = [] then [] else [String.mk cur.reverse]
  | c :: rest, cur =>
      if c.isWhitespace then
        if cur = [] then splitWsAux rest []
        else String.mk cur.reverse :: splitWsAux rest []
      else splitWsAux rest (c :: cur)

/-- Python's `str.split()` with no argument: split on runs of whitespace,
producing no empty tokens. -/
def pySplit (s : String) : List String := splitWsAux s.data []

/-- Python's `str.strip()` on a character list: drop surrounding
whitespace (used by `int()`). -/
def stripWs (cs : List Char) : List Char :=
  ((cs.dropWhile Char.isWhitespace).reverse.dropWhile Char.isWhitespace).reverse

/-- Accumulate the decimal digits of a Python integer literal after its
first digit: Python's `int()` grammar allows a single underscore between
two digits (`digit (["_"] digit)*`). -/
def pyDigitsAux : List Char → Nat → Option Nat
  | [], acc => some acc
  | '_' :: c :: rest, acc =>
      if c.isDigit then pyDigitsAux rest (acc * 10 + (c.toNat - 48)) else none
  | c :: rest, acc =>
      if c.isDigit then pyDigitsAux rest (acc * 10 + (c.toNat - 48)) else none

/-- The unsigned-decimal part of Python's `int()`: one digit, then digits
with optional single interior underscores. -/
def pyDigits : List Char → Option Nat
  | [] => none
  | c :: rest => if c.isDigit then pyDigitsAux rest (c.toNat - 48) else none

/-- Python's `int(str)` in base 10: surrounding whitespace is ignored, an
optional sign precedes the digits, anything else raises `ValueError`
(modelled as `none`). -/
def pyInt (s : String) : Option Int :=
  match stripWs s.data with
  | '+' :: rest => (pyDigits rest).map fun n => (n : Int)
  | '-' :: rest => (pyDigits rest).map fun n => -(n : Int)
  | rest => (pyDigits rest).map fun n => (n : Int)

/-- `":" in part`. -/
def hasColon (part : String) : Bool := part.data.contains ':'

/-- The `key` of `part.split(":", 1)`: everything before the first colon. -/
def keyPart (part : String) : String := String.mk (part.data.takeWhile fun c => c ≠ ':')

/-- The `val` of `part.split(":", 1)`: everything after the first colon. -/
def valPart (part : String) : String :=
  String.mk ((part.data.dropWhile fun c => c ≠ ':').drop 1)

/-- `parsed[key] = v` on an insertion-ordered dictionary (Python dict
assignment: replace in place when the key exists, append otherwise). -/
def dictSet : List (String × Int) → String → Int → List (String × Int)
  | [], k, v => [(k, v)]
  | (k', v') :: rest, k, v =>
      if k' = k then (k, v) :: rest else (k', v') :: dictSet rest k v

/-- One iteration of the `for part in parts` loop of `_parse_line`: a part
with a colon whose value parses as an integer is stored; any other part is
skipped. -/
def parseStep (parsed : List (String × Int)) (part : String) : List (String × Int) :=
  if hasColon part then
    match pyInt (valPart part) with
    | some v => dictSet parsed (keyPart part) v
    | none => parsed
  else parsed

/-- The `parsed` dictionary `_parse_line` builds from a token list. -/
def parsedTokens (parts : List String) : List (String × Int) :=
  parts.foldl parseStep []

/-- The `parsed` dictionary `_parse_line` builds from a whole line. -/
def parsedOf (line : String) : List (String × Int) := parsedTokens (pySplit line)

/-- `parsed.get(k, 0)`. -/
def dictGet (d : List (String × Int)) (k : String) : Int := ((d.lookup k).getD 0)

/-- The key `"POT<i>"` of joint `i`. -/
def potKey : Fin 6 → String := !["POT0", "POT1", "POT2", "POT3", "POT4", "POT5"]

/-- The raw reading `_parse_line` uses for key `k`: the parsed value, with
0 substituted when the key is absent. -/
def rawOf (line : String) (k : String) : Int := dictGet (parsedOf line) k

/-- `self.values["pitch"] = p0 * 360 / 1024` (exact rational arithmetic;
the float arithmetic of the source is exact on these dyadic values). -/
def pitchOf (line : String) : ℚ := (rawOf line "POT0" : ℚ) * 360 / 1024

/-- `self.values["roll"] = p3 * 360 / 1024`. -/
def rollOf (line : String) : ℚ := (rawOf line "POT3" : ℚ) * 360 / 1024

/-- `self.values["yaw"] = p2 * 360 / 1024`. -/
def yawOf (line : String) : ℚ := (rawOf line "POT2" : ℚ) * 360 / 1024

/-- `angles_deg`: all six raw values scaled by `360 / 1024`. -/
def anglesDegOf (line : String) : Fin 6 → ℚ :=
  fun i => (rawOf line (potKey i) : ℚ) * (360 / 1024)

/-- The tip position `_parse_line` stores: `calculate_tip_xy(angles_deg,
DUMMY_LENGTHS)`. -/
noncomputable def tipOf (line : String) : ℝ × ℝ × ℝ :=
  calculate_tip_xy (fun i => ((anglesDegOf line i : ℚ) : ℝ)) DUMMY_LENGTHS

/-- The published shared state `self.values` of `SerialController`. -/
structure Values where
  pitch : ℚ
  roll : ℚ
  yaw : ℚ
  x : ℝ
  y : ℝ
  z : ℝ
  raw : List (String × Int)

/-- The zero-initialized `self.values` set in `__init__`. -/
def initValues : Values := ⟨0, 0, 0, 0, 0, 0, []⟩

/-- The full state update `_parse_line` performs on `self.values`. -/
noncomputable def parse_line_update (v : Values) (line : String) : Values :=
  { v with
    raw := parsedOf line
    pitch := pitchOf line
    roll := rollOf line
    yaw := yawOf line
    x := (tipOf line).1
    y := (tipOf line).2.1
    z := (tipOf line).2.2 }

/-- Does the pattern start the character list? -/
def prefixMatches : List Char → List Char → Bool
  | [], _ => true
  | _ :: _, [] => false
  | p :: ps, c :: cs => p == c && prefixMatches ps cs

/-- Does the pattern occur anywhere in the character list? -/
def infixMatches : List Char → List Char → Bool
  | pat, [] => pat.isEmpty
  | pat, c :: cs => prefixMatches pat (c :: cs) || infixMatches pat cs

/-- `"POT" in line_str`: Python's substring membership test. -/
def pyContains (line marker : String) : Bool := infixMatches marker.data line.data

/-- The per-line dispatch of `_read_loop`: a decoded line is handed to
`_parse_line` only when it contains the marker substring `"POT"`;
otherwise the published values are left untouched. -/
noncomputable def read_loop_handle (v : Values) (line : String) : Values :=
  if pyContains line "POT" then parse_line_update v line else v

/- ### The lock structure of the publish step (`_parse_line`)

To settle the concurrency claim about what work the shared-state lock
covers, the body of `_parse_line` is embedded as its statement sequence:
one constructor per statement (or statement group), in source order, with
the `with self.lock:` block delimited by an acquire and a release. -/

/-- The statements of `SerialController._parse_line`, named in source
order. -/
inductive Stmt : Type where
  | splitParts : Stmt
  | buildParsed : Stmt
  | acquireLock : Stmt
  | storeRaw : Stmt
  | readPots : Stmt
  | storePitch : Stmt
  | storeRoll : Stmt
  | storeYaw : Stmt
  | computeAnglesDeg : Stmt
  | computeKinematics : Stmt
  | storeX : Stmt
  | storeY : Stmt
  | storeZ : Stmt
  | printOutput : Stmt
  | releaseLock : Stmt
deriving DecidableEq

/-- The statement trace of `_parse_line`: split the line and build
`parsed` outside the lock; then, inside the `with self.lock:` block, store
the raw frame, read the six pot values, store pitch/roll/yaw, build
`angles_deg`, call `calculate_tip_xy`, store x/y/z and print the formatted
output; the lock is released when the block ends. -/
def parse_line_trace : List Stmt :=
  [Stmt.splitParts, Stmt.buildParsed,
   Stmt.acquireLock,
   Stmt.storeRaw, Stmt.readPots,
   Stmt.storePitch, Stmt.storeRoll, Stmt.storeYaw,
   Stmt.computeAnglesDeg, Stmt.computeKinematics,
   Stmt.storeX, Stmt.storeY, Stmt.storeZ,
   Stmt.printOutput,
   Stmt.releaseLock]

/-- The statements executed while the lock is held: everything strictly
between the acquire and the release. -/
def criticalSection (trace : List Stmt) : List Stmt :=
  ((trace.dropWhile fun s => s ≠ Stmt.acquireLock).drop 1).takeWhile
    fun s => s ≠ Stmt.releaseLock

/-- The statements that perform console output (the `print` call). -/
def isConsoleWrite : Stmt → Bool
  | Stmt.printOutput => true
  | _ => false

/-- The statements that overwrite a published Pose field
(pitch/roll/yaw/x/y/z). -/
def isPoseFieldWrite : Stmt → Bool
  | Stmt.storePitch | Stmt.storeRoll | Stmt.storeYaw
  | Stmt.storeX | Stmt.storeY | Stmt.storeZ => true
  | _ => false

/- ### The `stop()` lifecycle of `SerialController` -/

/-- A pyserial connection handle: only its open flag matters to `stop()`;
`close()` clears it and is idempotent. -/
structure SerialConn : Type where
  is_open : Bool
deriving DecidableEq

/-- `serial_connection.close()`. -/
def closeConn (c : SerialConn) : SerialConn := { c with is_open := false }

/-- The `SerialController` state `stop()` touches: the `running` flag,
whether a reader thread object exists (`self.thread is not None`), and the
optional connection handle (`None` before a successful `start()` and in
mock mode). -/
structure Controller : Type where
  running : Bool
  hasThread : Bool
  serial_connection : Option SerialConn
deriving DecidableEq

/-- The state established by `__init__` (also the state after `start()`
chose mock mode, which returns without touching these fields). -/
def initController : Controller :=
  { running := false, hasThread := false, serial_connection := none }

/-- `stop()`: clear `running`, join the thread if one exists (a bounded
wait with no effect on these fields), close the connection if one is open.
Total — no branch raises. -/
def stop (c : Controller) : Controller :=
  { c with
    running := false
    serial_connection := c.serial_connection.map closeConn }

/- ### Claim theorems -/

/-- C6: with all six angles zero, `calculate_tip_xy` returns the sum of
the six lengths as the tip x and zero for y and z — the chain lies flat
along the forward axis. -/
theorem C6_zero_angles_tip (lengths : Fin 6 → ℝ) :
    calculate_tip_xy (fun _ => 0) lengths =
      (lengths 0 + lengths 1 + lengths 2 + lengths 3 + lengths 4 + lengths 5, 0, 0) :=
  tip_zero_angles lengths

/-- C3: parsing the line `POT0:512 POT1:512 POT2:256 POT3:768 POT4:100
POT5:900` derives pitch 180° (from POT0 = 512), roll 270° (from POT3 =
768) and yaw 90° (from POT2 = 256), each within 0.1°, under the scaling
`raw * 360 / 1024`. -/
theorem C3_example_line_pitch_roll_yaw :
    |pitchOf "POT0:512 POT1:512 POT2:256 POT3:768 POT4:100 POT5:900" - 180| ≤ 1 / 10 ∧
    |rollOf "POT0:512 POT1:512 POT2:256 POT3:768 POT4:100 POT5:900" - 270| ≤ 1 / 10 ∧
    |yawOf "POT0:512 POT1:512 POT2:256 POT3:768 POT4:100 POT5:900" - 90| ≤ 1 / 10 := by
  have h0 : rawOf "POT0:512 POT1:512 POT2:256 POT3:768 POT4:100 POT5:900" "POT0" = 512 := by
    decide
  have h3 : rawOf "POT0:512 POT1:512 POT2:256 POT3:768 POT4:100 POT5:900" "POT3" = 768 := by
    decide
  have h2 : rawOf "POT0:512 POT1:512 POT2:256 POT3:768 POT4:100 POT5:900" "POT2" = 256 := by
    decide
  refine ⟨?_, ?_, ?_⟩
  · unfold pitchOf
    rw [h0]
    norm_num
  · unfold rollOf
    rw [h3]
    norm_num
  · unfold yawOf
    rw [h2]
    norm_num

/-- C8: a decoded line that does not contain the marker substring `POT` is
discarded by the read loop: the published values are left unchanged, and
the handler is a total function, so nothing is raised. -/
theorem C8_non_marker_line_no_effect (v : Values) (line : String)
    (h : pyContains line "POT" = false) :
    read_loop_handle v line = v := by
  simp [read_loop_handle, h]

/-- Witness for C8 at the concrete non-marker line `hello world`. -/
theorem C8_non_marker_line_no_effect_witness :
    read_loop_handle initValues "hello world" = initValues :=
  C8_non_marker_line_no_effect initValues "hello world" (by decide)

/-- C9: `stop()` is idempotent and total over controller states: it always
clears the running flag, any connection still present afterwards is
closed, and stopping the freshly-initialized controller (stop before
start, or stop in mock mode) leaves it exactly in the terminated initial
state. -/
theorem C9_stop_idempotent_total :
    (∀ c : Controller, stop (stop c) = stop c) ∧
    (∀ c : Controller, (stop c).running = false) ∧
    (∀ (c : Controller) (sc : SerialConn),
        (stop c).serial_connection = some sc → sc.is_open = false) ∧
    stop initController = initController := by
  refine ⟨?_, fun c => rfl, ?_, rfl⟩
  · intro c
    cases hc : c.serial_connection <;> simp [stop, closeConn, hc]
  · intro c sc h
    cases hc : c.serial_connection with
    | none => simp [stop, hc] at h
    | some sc0 =>
        simp [stop, hc] at h
        rw [← h]
        rfl

/-- Witness for C9: stopping a running controller with an open connection
leaves the connection closed. -/
theorem C9_stop_idempotent_total_witness :
    SerialConn.is_open { is_open := false } = false :=
  C9_stop_idempotent_total.2.2.1
    { running := true, hasThread := true, serial_connection := some { is_open := true } }
    { is_open := false } (by decide)

lemma radians_45 : radians 45 = Real.pi / 4 := by
  unfold radians
  ring

/-- The tip for angles `[0, 45, 0, 0, 0, 0]` and lengths
`[10, 10, 10, 5, 5, 2]`, in exact closed form: the 32 units of chain after
joint 1 are rotated by 45° about Y, so the tip is
`(10 + 16√2, 0, −16√2)`. -/
lemma tip_known_scenario :
    calculate_tip_xy ![0, 45, 0, 0, 0, 0] DUMMY_LENGTHS =
      (10 + 16 * Real.sqrt 2, 0, -(16 * Real.sqrt 2)) := by
  have l0 : DUMMY_LENGTHS 0 = 10 := rfl
  have l1 : DUMMY_LENGTHS 1 = 10 := rfl
  have l2 : DUMMY_LENGTHS 2 = 10 := rfl
  have l3 : DUMMY_LENGTHS 3 = 5 := rfl
  have l4 : DUMMY_LENGTHS 4 = 5 := rfl
  have l5 : DUMMY_LENGTHS 5 = 2 := rfl
  have a0 : (![0, 45, 0, 0, 0, 0] : Fin 6 → ℝ) 0 = 0 := rfl
  have a1 : (![0, 45, 0, 0, 0, 0] : Fin 6 → ℝ) 1 = 45 := rfl
  have a2 : (![0, 45, 0, 0, 0, 0] : Fin 6 → ℝ) 2 = 0 := rfl
  have a3 : (![0, 45, 0, 0, 0, 0] : Fin 6 → ℝ) 3 = 0 := rfl
  have a4 : (![0, 45, 0, 0, 0, 0] : Fin 6 → ℝ) 4 = 0 := rfl
  have a5 : (![0, 45, 0, 0, 0, 0] : Fin 6 → ℝ) 5 = 0 := rfl
  simp only [calculate_tip_xy, l0, l1, l2, l3, l4, l5, a0, a1, a2, a3, a4, a5]
  rw [radians_zero, radians_45, get_tf_zero, get_tf_zero, get_tf_zero, get_tf_zero,
      get_tf_zero]
  rw [chain_one_joint (Real.pi / 4)]
  rw [Real.cos_pi_div_four, Real.sin_pi_div_four]
  simp only [Prod.mk.injEq]
  refine ⟨?_, ?_, ?_⟩ <;>
    simp [Matrix.vecHead, Matrix.vecTail, Function.comp] <;> ring

/-- C1 (counterexample): for angles `[0, 45, 0, 0, 0, 0]` and lengths
`[10, 10, 10, 5, 5, 2]`, `calculate_tip_xy` does NOT return
`x ≈ 34.071, y ≈ −7.071, z ≈ 0` to 2-decimal precision: the code rotates
joint 1 about Y, which moves the tip in x and z and leaves y exactly 0,
so the claimed y is off by more than 7 units. -/
theorem C1_known_scenario_refuted :
    ¬ (|(calculate_tip_xy ![0, 45, 0, 0, 0, 0] DUMMY_LENGTHS).1 - 34.071| ≤ 5 / 1000 ∧
       |(calculate_tip_xy ![0, 45, 0, 0, 0, 0] DUMMY_LENGTHS).2.1 - (-7.071)| ≤ 5 / 1000 ∧
       |(calculate_tip_xy ![0, 45, 0, 0, 0, 0] DUMMY_LENGTHS).2.2 - 0| ≤ 5 / 1000) := by
  rw [tip_known_scenario]
  intro h
  rcases h with ⟨-, h2, -⟩
  norm_num at h2
  rw [abs_of_nonneg (by norm_num : (0 : ℝ) ≤ 7071 / 1000)] at h2
  norm_num at h2

/-- C1 (amended): for angles `[0, 45, 0, 0, 0, 0]` and lengths
`[10, 10, 10, 5, 5, 2]`, `calculate_tip_xy` returns exactly
`(10 + 16√2, 0, −16√2)`, i.e. `x ≈ 32.63`, `y = 0` and `z ≈ −22.63` to
2-decimal precision. -/
theorem C1_known_scenario_tip :
    calculate_tip_xy ![0, 45, 0, 0, 0, 0] DUMMY_LENGTHS =
      (10 + 16 * Real.sqrt 2, 0, -(16 * Real.sqrt 2)) ∧
    |(10 + 16 * Real.sqrt 2) - 32.63| ≤ 5 / 1000 ∧
    |(-(16 * Real.sqrt 2)) - (-22.63)| ≤ 5 / 1000 := by
  have hsq : Real.sqrt 2 ^ 2 = 2 := Real.sq_sqrt (by norm_num)
  have hnn : (0 : ℝ) ≤ Real.sqrt 2 := Real.sqrt_nonneg 2
  have hup : Real.sqrt 2 ≤ 1.4146875 := by nlinarith [sq_nonneg (Real.sqrt 2 - 1.4146875)]
  have hlo : 1.4140625 ≤ Real.sqrt 2 := by nlinarith [sq_nonneg (Real.sqrt 2 + 1.4140625)]
  refine ⟨tip_known_scenario, ?_, ?_⟩ <;>
    · rw [abs_le]
      constructor <;> nlinarith

/-- C4 (counterexample): it is not the case that the lock is held only for
the atomic overwrite of the published Pose fields: the critical section of
`_parse_line` contains statements that are not Pose-field assignments, and
in particular contains console output (the `print` call). -/
theorem C4_lock_only_assignment_refuted :
    ¬ (∀ s ∈ criticalSection parse_line_trace,
          isPoseFieldWrite s = true ∧ isConsoleWrite s = false) := by
  decide

/-- C4 (amended): the lock of `_parse_line` is held for the whole
parse-and-publish body — the raw-frame store, the pot reads, the
pitch/roll/yaw stores, the angle conversion, the forward-kinematics call,
the x/y/z stores and the `print` of the formatted output — so the critical
section is bounded but includes the kinematics computation and console
output, not only the Pose assignment. -/
theorem C4_critical_section_contents :
    criticalSection parse_line_trace =
      [Stmt.storeRaw, Stmt.readPots, Stmt.storePitch, Stmt.storeRoll, Stmt.storeYaw,
       Stmt.computeAnglesDeg, Stmt.computeKinematics, Stmt.storeX, Stmt.storeY,
       Stmt.storeZ, Stmt.printOutput] ∧
    (criticalSection parse_line_trace).any isConsoleWrite = true := by
  decide

/-- C7: a whitespace token whose value part does not parse as a Python
integer, or that lacks the colon separator, contributes nothing: deleting
it from the token list leaves the parsed dictionary unchanged (so the rest
of the line is still processed and nothing is raised), and a `POT` key
that ends up absent yields a raw reading of 0. -/
theorem C7_malformed_token_dropped :
    (∀ (pre post : List String) (bad : String),
        hasColon bad = false ∨ pyInt (valPart bad) = none →
        parsedTokens (pre ++ bad :: post) = parsedTokens (pre ++ post)) ∧
    (∀ (line : String) (i : Fin 6),
        (parsedOf line).lookup (potKey i) = none → rawOf line (potKey i) = 0) := by
  constructor
  · intro pre post bad hbad
    have hstep : ∀ parsed, parseStep parsed bad = parsed := by
      intro parsed
      unfold parseStep
      rcases hbad with h | h
      · simp [h]
      · cases hc : hasColon bad
        · simp
        · simp [h]
    unfold parsedTokens
    rw [List.foldl_append, List.foldl_append, List.foldl_cons, hstep]
  · intro line i h
    unfold rawOf dictGet
    rw [h]
    rfl

/-- Witness for C7: the malformed token `POT0:abc` is dropped from a line
that also carries a well-formed token, and the absent key `POT0` reads
as 0. -/
theorem C7_malformed_token_dropped_witness :
    parsedTokens ["POT1:7", "POT0:abc"] = parsedTokens ["POT1:7"] ∧
    rawOf "POT0:abc" (potKey 0) = 0 :=
  ⟨C7_malformed_token_dropped.1 ["POT1:7"] [] "POT0:abc" (Or.inr (by decide)),
   C7_malformed_token_dropped.2 "POT0:abc" 0 (by decide)⟩

/-- C5 (counterexample): with only `length[0] = 10` nonzero and only
`angle[0] = 90` nonzero, the tip is `(0, 0, −10)`, not `(10, 0, 0)`:
rotating joint 0 rotates joint 0's own link, so the tip does depend on
`angle[0]`. -/
theorem C5_single_joint_refuted :
    calculate_tip_xy ![90, 0, 0, 0, 0, 0] ![10, 0, 0, 0, 0, 0] ≠ ((10 : ℝ), 0, 0) := by
  have h90 : radians 90 = Real.pi / 2 := by
    unfold radians
    ring
  have key : calculate_tip_xy ![90, 0, 0, 0, 0, 0] ![10, 0, 0, 0, 0, 0] = (0, 0, -10) := by
    have a0 : (![90, 0, 0, 0, 0, 0] : Fin 6 → ℝ) 0 = 90 := rfl
    have a1 : (![90, 0, 0, 0, 0, 0] : Fin 6 → ℝ) 1 = 0 := rfl
    have a2 : (![90, 0, 0, 0, 0, 0] : Fin 6 → ℝ) 2 = 0 := rfl
    have a3 : (![90, 0, 0, 0, 0, 0] : Fin 6 → ℝ) 3 = 0 := rfl
    have a4 : (![90, 0, 0, 0, 0, 0] : Fin 6 → ℝ) 4 = 0 := rfl
    have a5 : (![90, 0, 0, 0, 0, 0] : Fin 6 → ℝ) 5 = 0 := rfl
    have b0 : (![10, 0, 0, 0, 0, 0] : Fin 6 → ℝ) 0 = 10 := rfl
    have b1 : (![10, 0, 0, 0, 0, 0] : Fin 6 → ℝ) 1 = 0 := rfl
    have b2 : (![10, 0, 0, 0, 0, 0] : Fin 6 → ℝ) 2 = 0 := rfl
    have b3 : (![10, 0, 0, 0, 0, 0] : Fin 6 → ℝ) 3 = 0 := rfl
    have b4 : (![10, 0, 0, 0, 0, 0] : Fin 6 → ℝ) 4 = 0 := rfl
    have b5 : (![10, 0, 0, 0, 0, 0] : Fin 6 → ℝ) 5 = 0 := rfl
    simp only [calculate_tip_xy, a0, a1, a2, a3, a4, a5, b0, b1, b2, b3, b4, b5]
    rw [radians_zero, h90, get_tf_zero, get_tf_zero, get_tf_zero, T_trans_zero, get_tf_y]
    simp [Matrix.mul_apply, Fin.sum_univ_four, Matrix.vecHead, Matrix.vecTail,
          Function.comp]
  rw [key]
  intro hEq
  have : (0 : ℝ) = 10 := congrArg Prod.fst hEq
  norm_num at this

/-- C5 (amended): the single-joint property holds as stated for joint 3,
whose axis is X: with only `length[3]` nonzero and only `angle[3]`
possibly nonzero the tip is `(length[3], 0, 0)` for every angle, because
rotating about X fixes the X axis the link extends along.  For an
arbitrary joint `i` it holds when `angle[i]` is 0 (the case the spec's
zero-angle rationale actually supports). -/
theorem C5_single_joint_amended :
    (∀ (a L : ℝ),
        calculate_tip_xy ![0, 0, 0, a, 0, 0] ![0, 0, 0, L, 0, 0] = (L, 0, 0)) ∧
    (∀ (i : Fin 6) (L : ℝ),
        calculate_tip_xy (fun _ => 0) (fun j => if j = i then L else 0) = (L, 0, 0)) := by
  constructor
  · intro a L
    have a0 : (![0, 0, 0, a, 0, 0] : Fin 6 → ℝ) 0 = 0 := rfl
    have a1 : (![0, 0, 0, a, 0, 0] : Fin 6 → ℝ) 1 = 0 := rfl
    have a2 : (![0, 0, 0, a, 0, 0] : Fin 6 → ℝ) 2 = 0 := rfl
    have a3 : (![0, 0, 0, a, 0, 0] : Fin 6 → ℝ) 3 = a := rfl
    have a4 : (![0, 0, 0, a, 0, 0] : Fin 6 → ℝ) 4 = 0 := rfl
    have a5 : (![0, 0, 0, a, 0, 0] : Fin 6 → ℝ) 5 = 0 := rfl
    have b0 : (![0, 0, 0, L, 0, 0] : Fin 6 → ℝ) 0 = 0 := rfl
    have b1 : (![0, 0, 0, L, 0, 0] : Fin 6 → ℝ) 1 = 0 := rfl
    have b2 : (![0, 0, 0, L, 0, 0] : Fin 6 → ℝ) 2 = 0 := rfl
    have b3 : (![0, 0, 0, L, 0, 0] : Fin 6 → ℝ) 3 = L := rfl
    have b4 : (![0, 0, 0, L, 0, 0] : Fin 6 → ℝ) 4 = 0 := rfl
    have b5 : (![0, 0, 0, L, 0, 0] : Fin 6 → ℝ) 5 = 0 := rfl
    simp only [calculate_tip_xy, a0, a1, a2, a3, a4, a5, b0, b1, b2, b3, b4, b5]
    rw [radians_zero, get_tf_zero, get_tf_zero, T_trans_zero, get_tf_x]
    simp [Matrix.mul_apply, Fin.sum_univ_four, Matrix.vecHead, Matrix.vecTail,
          Function.comp]
  · intro i L
    rw [tip_zero_angles]
    fin_cases i <;> simp

/-- C10: for an accepted line in which no `POT0`..`POT5` key carries a
valid integer, every raw reading defaults to 0, so the published pose has
pitch = roll = yaw = 0 but position `(42, 0, 0)` — the sum of the
configured link lengths — which differs from the zero-initialized Pose
whose x is 0. -/
theorem C10_all_zero_frame_pose (line : String)
    (h : ∀ i : Fin 6, (parsedOf line).lookup (potKey i) = none) :
    pitchOf line = 0 ∧ rollOf line = 0 ∧ yawOf line = 0 ∧
    tipOf line = ((42 : ℝ), 0, 0) ∧ (tipOf line).1 ≠ 0 := by
  have hraw : ∀ i : Fin 6, rawOf line (potKey i) = 0 := by
    intro i
    unfold rawOf dictGet
    rw [h i]
    rfl
  have h0 : rawOf line "POT0" = 0 := hraw 0
  have h2 : rawOf line "POT2" = 0 := hraw 2
  have h3 : rawOf line "POT3" = 0 := hraw 3
  have hang : (fun i : Fin 6 => ((anglesDegOf line i : ℚ) : ℝ)) = fun _ => (0 : ℝ) := by
    funext i
    unfold anglesDegOf
    rw [hraw i]
    norm_num
  have htip : tipOf line = ((42 : ℝ), 0, 0) := by
    unfold tipOf
    rw [hang, tip_zero_angles]
    rw [show DUMMY_LENGTHS 0 = 10 from rfl, show DUMMY_LENGTHS 1 = 10 from rfl,
        show DUMMY_LENGTHS 2 = 10 from rfl, show DUMMY_LENGTHS 3 = 5 from rfl,
        show DUMMY_LENGTHS 4 = 5 from rfl, show DUMMY_LENGTHS 5 = 2 from rfl]
    norm_num
  refine ⟨?_, ?_, ?_, htip, ?_⟩
  · unfold pitchOf
    rw [h0]
    norm_num
  · unfold rollOf
    rw [h3]
    norm_num
  · unfold yawOf
    rw [h2]
    norm_num
  · rw [htip]
    norm_num

/-- Witness for C10 at the line `POT`, which passes the marker filter but
yields no readings. -/
theorem C10_all_zero_frame_pose_witness :
    pitchOf "POT" = 0 ∧ rollOf "POT" = 0 ∧ yawOf "POT" = 0 ∧
    tipOf "POT" = ((42 : ℝ), 0, 0) ∧ (tipOf "POT").1 ≠ 0 :=
  C10_all_zero_frame_pose "POT" (by decide)

end TeleBuddy
